import Mathlib

/-!
Shallow embedding of the claim-verification pipeline of `pkg/cosign/verify.go`
(functions `Verify`, `validSignatures`, `verifyClaims`, `digestAndClaims`,
`correctAnnotations`, `VerifySignature`), together with theorems settling the
specification claims about it.

External collaborators (base64 decoding, ed25519 verification, registry
fetching, JSON decoding) are modelled abstractly: a payload byte blob is
represented by the outcomes `json.Unmarshal` would produce for each of the two
target Go types, and the cryptographic primitives are fields of a `Crypto`
structure over which all theorems quantify.
-/

namespace Cosign

/-- Raw byte strings (signatures, keys) are modelled as lists of naturals. -/
abbrev Bytes := List Nat

/-- An ed25519 public key, already parsed (key loading is an external
collaborator). -/
abbrev PubKey := Bytes

/-- Go `map[string]string`, modelled as an association list; a `nil` map is the
empty list. -/
abbrev AnnMap := List (String × String)

/-- Go map indexing `m[k]`: an absent key yields the zero value `""`. -/
def mapGet (m : AnnMap) (k : String) : String := (m.lookup k).getD ""

/-- Embedding of `v1.Hash` as used here: an algorithm and a hex string. -/
structure Hash where
  algorithm : String
  hex : String
deriving DecidableEq, Repr

/-- Embedding of `v1.Hash.String()`: `Algorithm + ":" + Hex`. -/
def Hash.string (h : Hash) : String := h.algorithm ++ ":" ++ h.hex

/-- Embedding of `v1.Descriptor` (the fields `verify.go` reads: `MediaType`,
`Digest`, `Annotations`). -/
structure Descriptor where
  mediaType : String
  digest : Hash
  annotations : AnnMap
deriving DecidableEq, Repr

/-- Modelled from the spec: the simple-signing payload type `SimpleSigning`
is declared outside the shown sources; per the spec it nests a
`critical.image.docker-manifest-digest` string and an `optional` map. This is
the innermost image record. -/
structure Image where
  dockerManifestDigest : String
deriving DecidableEq, Repr

/-- Modelled from the spec: the `critical` section of a simple-signing
payload, holding the image record. -/
structure Critical where
  image : Image
deriving DecidableEq, Repr

/-- Modelled from the spec: the simple-signing payload, a `critical` section
plus an `optional` annotation map. -/
structure SimpleSigning where
  critical : Critical
  optional : AnnMap
deriving DecidableEq, Repr

instance {ε α : Type} [DecidableEq ε] [DecidableEq α] : DecidableEq (Except ε α)
  | .error x, .error y =>
    if h : x = y then .isTrue (by rw [h]) else .isFalse (by simp [h])
  | .error _, .ok _ => .isFalse (by simp)
  | .ok _, .error _ => .isFalse (by simp)
  | .ok x, .ok y =>
    if h : x = y then .isTrue (by rw [h]) else .isFalse (by simp [h])

/-- Abstraction of a payload byte blob: what `json.Unmarshal` yields on it for
each of the two target Go types (`v1.Descriptor` and `SimpleSigning`).
`digestAndClaims` consults exactly one of the two fields, selected by the
descriptor's media type. -/
structure PayloadBytes where
  asDescriptor : Except String Descriptor
  asSimpleSigning : Except String SimpleSigning
deriving DecidableEq, Repr

/-- Modelled from the spec: `SignedPayload` (declared outside the shown
sources) pairs the payload bytes with the base64-encoded signature text,
exactly the two fields `verify.go` reads. -/
structure SignedPayload where
  payload : PayloadBytes
  base64Signature : String
deriving DecidableEq, Repr

/-- External cryptographic primitives used by `VerifySignature`:
`base64.StdEncoding.DecodeString` (which may fail with a message) and
`ed25519.Verify`. All theorems quantify over them. -/
structure Crypto where
  base64Decode : String → Except String Bytes
  ed25519Verify : PubKey → PayloadBytes → Bytes → Bool

/-- Go `types.OCIManifestSchema1`. -/
def ociManifestSchema1 : String := "application/vnd.oci.image.manifest.v1+json"

/-- The simple-signing media type string literal from `digestAndClaims`. -/
def simpleSigningMediaType : String := "application/vnd.dev.cosign.simplesigning.v1+json"

/-- Embedding of `strings.Join(elems, sep)`. -/
def goJoin (sep : String) : List String → String
  | [] => ""
  | [a] => a
  | a :: rest => a ++ sep ++ goJoin sep rest

/-- Embedding of `fmt.Sprintf("%v", m)` on an annotation map, used only inside
a recorded failure message; the claims never inspect this text. -/
def formatMap (m : AnnMap) : String :=
  "map[" ++ goJoin " " (m.map (fun kv => kv.1 ++ ":" ++ kv.2)) ++ "]"

/-- Embedding of `VerifySignature`: decode the base64 signature (a decode
failure is returned as the error), then run ed25519 verification; a
verification failure yields the fixed message. `none` means success (Go
`nil` error). -/
def VerifySignature (C : Crypto) (pubkey : PubKey) (base64sig : String)
    (payload : PayloadBytes) : Option String :=
  match C.base64Decode base64sig with
  | .error e => some e
  | .ok signature =>
    if C.ed25519Verify pubkey payload signature then none
    else some "unable to verify signature"

/-- Embedding of the loop body of `validSignatures`: returns the pair
(valid signatures, validation error messages), each in candidate order. -/
def validSignaturesLoop (C : Crypto) (pubKey : PubKey) :
    List SignedPayload → List SignedPayload × List String
  | [] => ([], [])
  | sp :: rest =>
    let r := validSignaturesLoop C pubKey rest
    match VerifySignature C pubKey sp.base64Signature sp.payload with
    | some e => (r.1, e :: r.2)
    | none => (sp :: r.1, r.2)

/-- Embedding of `validSignatures`: keep the candidates whose signature
verifies; if none survive, fail with the aggregated message. -/
def validSignatures (C : Crypto) (pubKey : PubKey)
    (signatures : List SignedPayload) : Except String (List SignedPayload) :=
  let r := validSignaturesLoop C pubKey signatures
  if r.1 = [] then
    .error ("no matching signatures:\n" ++ goJoin "\n  " r.2)
  else
    .ok r.1

/-- Embedding of `digestAndClaims`: dispatch on the descriptor's media type;
decode the payload for that format, returning the decode error on malformed
bytes, the (digest, annotations) claim on success, and the unexpected-media-
type error otherwise. Mirrors the Go triple `(string, map, error)`. -/
def digestAndClaims (desc : Descriptor) (sp : SignedPayload) :
    String × AnnMap × Option String :=
  if desc.mediaType = ociManifestSchema1 then
    match sp.payload.asDescriptor with
    | .error e => ("", [], some e)
    | .ok d => (d.digest.string, d.annotations, none)
  else if desc.mediaType = simpleSigningMediaType then
    match sp.payload.asSimpleSigning with
    | .error e => ("", [], some e)
    | .ok ss => (ss.critical.image.dockerManifestDigest, ss.optional, none)
  else
    ("", [], some ("unexpected mediaType for " ++ desc.digest.string ++ ": " ++ desc.mediaType))

/-- Embedding of `correctAnnotations`: every wanted key must read back (with
Go zero-value lookup) exactly the wanted value. -/
def correctAnnotations (wanted hav : AnnMap) : Bool :=
  wanted.all (fun kv => mapGet hav kv.1 == kv.2)

/-- Embedding of the loop body of `verifyClaims`: returns the pair
(claim-check error messages, verified payloads), each in candidate order.
Note the source appends the extraction error, when there is one, and then
still runs the digest comparison on the zero-value results (there is no
`continue` after the error append). -/
def verifyClaimsLoop (desc : Descriptor) (annotations : AnnMap) :
    List SignedPayload → List String × List SignedPayload
  | [] => ([], [])
  | sp :: rest =>
    let r := verifyClaimsLoop desc annotations rest
    let t := digestAndClaims desc sp
    let foundDigest := t.1
    let foundAnnotations := t.2.1
    let errs0 : List String := match t.2.2 with
      | some e => [e]
      | none => []
    if foundDigest ≠ desc.digest.string then
      (errs0 ++ ("invalid or missing digest in claim: " ++ foundDigest) :: r.1, r.2)
    else if ¬ correctAnnotations annotations foundAnnotations then
      (errs0 ++ ("invalid or missing annotation in claim: " ++ formatMap foundAnnotations) :: r.1, r.2)
    else
      (errs0 ++ r.1, sp :: r.2)

/-- Embedding of `verifyClaims`: keep the payloads whose claims check out; if
none survive, fail with the aggregated message. -/
def verifyClaims (desc : Descriptor) (annotations : AnnMap)
    (signatures : List SignedPayload) : Except String (List SignedPayload) :=
  let r := verifyClaimsLoop desc annotations signatures
  if r.2 = [] then
    .error ("no matching claims:\n" ++ goJoin "\n  " r.1)
  else
    .ok r.2

/-- Embedding of `Verify`: fetch (an external collaborator, passed as a
function), phase 1 (`validSignatures`), early return when claims are not
checked, then phase 2 (`verifyClaims`). -/
def Verify (C : Crypto) (fetch : String → Except String (List SignedPayload × Descriptor))
    (ref : String) (pubKey : PubKey) (checkClaims : Bool) (annotations : AnnMap) :
    Except String (List SignedPayload) :=
  match fetch ref with
  | .error e => .error e
  | .ok fr =>
    match validSignatures C pubKey fr.1 with
    | .error e => .error e
    | .ok valid =>
      if ¬ checkClaims then .ok valid
      else
        match verifyClaims fr.2 annotations valid with
        | .error e => .error e
        | .ok verified => .ok verified

/-- Shorthand for the phase-1 outcome of a single candidate. -/
def sigOutcome (C : Crypto) (pubKey : PubKey) (sp : SignedPayload) : Option String :=
  VerifySignature C pubKey sp.base64Signature sp.payload

/-- Whether a single phase-1 survivor keeps its place in phase 2: the
extracted digest string equals the descriptor's digest string and the wanted
annotations all match. -/
def claimItemKeep (desc : Descriptor) (annotations : AnnMap) (sp : SignedPayload) : Bool :=
  (digestAndClaims desc sp).1 == desc.digest.string
    && correctAnnotations annotations (digestAndClaims desc sp).2.1

/-- The claim-check failure messages a single item contributes in phase 2. -/
def claimItemErrs (desc : Descriptor) (annotations : AnnMap) (sp : SignedPayload) : List String :=
  (match (digestAndClaims desc sp).2.2 with
    | some e => [e]
    | none => []) ++
  (if (digestAndClaims desc sp).1 ≠ desc.digest.string then
    ["invalid or missing digest in claim: " ++ (digestAndClaims desc sp).1]
  else if ¬ correctAnnotations annotations (digestAndClaims desc sp).2.1 then
    ["invalid or missing annotation in claim: " ++ formatMap (digestAndClaims desc sp).2.1]
  else [])

lemma hashString_ne_empty (h : Hash) : h.string ≠ "" := by
  intro e
  have hl := congrArg String.length e
  simp only [Hash.string, String.length_append] at hl
  have h1 : String.length ":" = 1 := rfl
  have h0 : String.length "" = 0 := rfl
  omega

lemma validSignaturesLoop_eq (C : Crypto) (pk : PubKey) (l : List SignedPayload) :
    validSignaturesLoop C pk l =
      (l.filter (fun sp => (sigOutcome C pk sp).isNone),
       l.filterMap (sigOutcome C pk)) := by
  induction l with
  | nil => rfl
  | cons sp rest ih =>
    simp only [validSignaturesLoop, ih, List.filter_cons, List.filterMap_cons]
    cases h : sigOutcome C pk sp <;>
      simp [sigOutcome] at h <;>
      simp [h]

lemma verifyClaimsLoop_eq (desc : Descriptor) (ann : AnnMap) (l : List SignedPayload) :
    verifyClaimsLoop desc ann l =
      (l.flatMap (claimItemErrs desc ann), l.filter (claimItemKeep desc ann)) := by
  induction l with
  | nil => rfl
  | cons sp rest ih =>
    simp only [verifyClaimsLoop, ih, List.flatMap_cons, List.filter_cons]
    by_cases h1 : (digestAndClaims desc sp).1 = desc.digest.string
    · by_cases h2 : correctAnnotations ann (digestAndClaims desc sp).2.1 = true
      · simp [claimItemErrs, claimItemKeep, h1, h2]
      · simp [claimItemErrs, claimItemKeep, h1, h2]
    · simp [claimItemErrs, claimItemKeep, h1]

/-- When extraction reports an error, the returned digest is the zero value
`""`. -/
lemma digestAndClaims_error_fst (desc : Descriptor) (sp : SignedPayload) :
    ∀ e, (digestAndClaims desc sp).2.2 = some e → (digestAndClaims desc sp).1 = "" := by
  unfold digestAndClaims
  split
  · cases hp : sp.payload.asDescriptor <;> simp
  · split
    · cases hp : sp.payload.asSimpleSigning <;> simp
    · simp

/-- Extraction failure forces the zero-value digest `""`, which never equals
the descriptor digest string, so the item cannot be kept. -/
lemma extractionError_not_kept (desc : Descriptor) (ann : AnnMap) (sp : SignedPayload)
    (e : String) (he : (digestAndClaims desc sp).2.2 = some e) :
    claimItemKeep desc ann sp = false := by
  have hd := digestAndClaims_error_fst desc sp e he
  simp [claimItemKeep, hd, Ne.symm (hashString_ne_empty desc.digest)]

/-- Extraction failure contributes exactly the decode message followed by the
spurious zero-digest message (the source lacks a `continue` after recording
the extraction error). -/
lemma claimItemErrs_of_error (desc : Descriptor) (ann : AnnMap) (sp : SignedPayload)
    (e : String) (he : (digestAndClaims desc sp).2.2 = some e) :
    claimItemErrs desc ann sp = [e, "invalid or missing digest in claim: "] := by
  have hd := digestAndClaims_error_fst desc sp e he
  simp [claimItemErrs, he, hd, Ne.symm (hashString_ne_empty desc.digest)]

/-- Number of newline characters in a string, used to count the lines of an
aggregated error message. -/
def countNewlines (s : String) : Nat := s.data.count '\n'

lemma countNewlines_append (a b : String) :
    countNewlines (a ++ b) = countNewlines a + countNewlines b := by
  simp [countNewlines, String.data_append, List.count_append]

lemma countNewlines_goJoin (msgs : List String) (hne : msgs ≠ [])
    (h0 : ∀ m ∈ msgs, countNewlines m = 0) :
    countNewlines (goJoin "\n  " msgs) = msgs.length - 1 := by
  induction msgs with
  | nil => exact absurd rfl hne
  | cons a rest ih =>
    cases rest with
    | nil => simp [goJoin, h0 a (by simp)]
    | cons b rest2 =>
      have hr := ih (by simp) (fun m hm => h0 m (by simp [hm]))
      have hsep : countNewlines "\n  " = 1 := rfl
      have ha := h0 a (by simp)
      rw [goJoin, countNewlines_append, countNewlines_append, ha, hsep, hr]
      · simp [Nat.add_comm]
      · simp

lemma validSignatures_ok (C : Crypto) (pk : PubKey) (sigs valid : List SignedPayload)
    (h : validSignatures C pk sigs = .ok valid) :
    valid = sigs.filter (fun sp => (sigOutcome C pk sp).isNone) ∧ valid ≠ [] := by
  unfold validSignatures at h
  rw [validSignaturesLoop_eq] at h
  by_cases hf : sigs.filter (fun sp => (sigOutcome C pk sp).isNone) = []
  · simp [hf] at h
  · simp only [hf, if_false] at h
    cases h
    exact ⟨rfl, hf⟩

lemma verifyClaims_ok (desc : Descriptor) (ann : AnnMap) (l out : List SignedPayload)
    (h : verifyClaims desc ann l = .ok out) :
    out = l.filter (claimItemKeep desc ann) ∧ out ≠ [] := by
  unfold verifyClaims at h
  rw [verifyClaimsLoop_eq] at h
  by_cases hf : l.filter (claimItemKeep desc ann) = []
  · simp [hf] at h
  · simp only [hf, if_false] at h
    cases h
    exact ⟨rfl, hf⟩

lemma verifyClaims_of_filter_ne (desc : Descriptor) (ann : AnnMap) (l : List SignedPayload)
    (hf : l.filter (claimItemKeep desc ann) ≠ []) :
    verifyClaims desc ann l = .ok (l.filter (claimItemKeep desc ann)) := by
  unfold verifyClaims
  rw [verifyClaimsLoop_eq]
  simp [hf]

lemma flatMap_congrOn {α β : Type} (l : List α) (f g : α → List β)
    (h : ∀ a ∈ l, f a = g a) : l.flatMap f = l.flatMap g := by
  induction l with
  | nil => rfl
  | cons a t ih =>
    rw [List.flatMap_cons, List.flatMap_cons, h a (by simp),
      ih (fun x hx => h x (by simp [hx]))]

lemma filterMap_sigOutcome_eq (C : Crypto) (pk : PubKey) (l : List SignedPayload)
    (h : ∀ sp ∈ l, (sigOutcome C pk sp).isSome) :
    l.filterMap (sigOutcome C pk) = l.map (fun sp => (sigOutcome C pk sp).getD "") := by
  induction l with
  | nil => rfl
  | cons a t ih =>
    have ha := h a (by simp)
    cases hfa : sigOutcome C pk a
    · rw [hfa] at ha; simp at ha
    · simp [List.filterMap_cons, hfa, ih (fun sp hsp => h sp (by simp [hsp]))]

section Demo

/-- Concrete digest used in the witness scenarios. -/
def demoHash : Hash := ⟨"sha256", "abc"⟩

/-- A different concrete digest, for mismatch scenarios. -/
def demoHash2 : Hash := ⟨"sha256", "def"⟩

/-- A concrete image descriptor with the OCI manifest media type. -/
def demoDesc : Descriptor := ⟨ociManifestSchema1, demoHash, []⟩

/-- A concrete image descriptor with the simple-signing media type. -/
def demoDescSS : Descriptor := ⟨simpleSigningMediaType, demoHash, []⟩

/-- A concrete image descriptor with an unrecognized media type. -/
def demoDescBad : Descriptor := ⟨"application/other", demoHash, []⟩

/-- A payload whose manifest decodes to the matching digest with one
annotation. -/
def demoSpGood : SignedPayload :=
  ⟨⟨.ok ⟨"", demoHash, [("k", "v")]⟩, .error "not simple signing"⟩, "c2ln"⟩

/-- A payload whose manifest decodes to a different digest. -/
def demoSpWrong : SignedPayload :=
  ⟨⟨.ok ⟨"", demoHash2, []⟩, .error "not simple signing"⟩, "c2ln"⟩

/-- A payload whose manifest decodes to the matching digest but with no
annotations. -/
def demoSpNoAnn : SignedPayload :=
  ⟨⟨.ok ⟨"", demoHash, []⟩, .error "not simple signing"⟩, "c2ln"⟩

/-- A payload that decodes as neither recognized format. -/
def demoSpBad : SignedPayload :=
  ⟨⟨.error "json unmarshal error", .error "not simple signing"⟩, "c2ln"⟩

/-- A crypto model under which every signature verifies. -/
def cryptoAccept : Crypto := ⟨fun _ => .ok [], fun _ _ _ => true⟩

/-- A crypto model under which every base64 decode fails. -/
def cryptoReject : Crypto := ⟨fun _ => .error "illegal base64 data", fun _ _ _ => false⟩

/-- A crypto model under which only `demoSpGood`'s payload verifies. -/
def cryptoSelective : Crypto :=
  ⟨fun _ => .ok [], fun _ p _ => p == demoSpGood.payload⟩

end Demo

lemma Verify_eq (C : Crypto)
    (fetch : String → Except String (List SignedPayload × Descriptor))
    (ref : String) (pk : PubKey) (cc : Bool) (ann : AnnMap) :
    Verify C fetch ref pk cc ann =
      (fetch ref).bind (fun fr =>
        (validSignatures C pk fr.1).bind (fun valid =>
          if ¬ cc then .ok valid else verifyClaims fr.2 ann valid)) := by
  unfold Verify
  cases hf : fetch ref with
  | error e => rfl
  | ok fr =>
    cases hv : validSignatures C pk fr.1 with
    | error e => simp [Except.bind, hv]
    | ok valid =>
      cases cc with
      | false => simp [Except.bind, hv]
      | true =>
        cases hvc : verifyClaims fr.2 ann valid <;> simp [Except.bind, hv, hvc]

/-- C2 counterexample: with wanted annotation `("k", "")` and an empty claim
map, the matcher accepts although the key `"k"` is not present in the claim
map, so acceptance is not equivalent to presence-with-equal-value. -/
theorem claim_C2_counterexample :
    ¬ (correctAnnotations [("k", "")] [] = true ↔
        ∀ kv ∈ ([("k", "")] : AnnMap), List.lookup kv.1 ([] : AnnMap) = some kv.2) := by
  decide

/-- C2 (amended): the claim matcher returns true iff every wanted key, looked
up in the claim's annotation map with Go zero-value semantics (an absent key
reads as the empty string), yields exactly the wanted value; annotations
present in the claim but not wanted are ignored, and an empty wanted map
always matches. -/
theorem claim_C2 (wanted hav : AnnMap) :
    (correctAnnotations wanted hav = true ↔ ∀ kv ∈ wanted, mapGet hav kv.1 = kv.2) ∧
    correctAnnotations [] hav = true := by
  constructor
  · simp [correctAnnotations, List.all_eq_true]
  · rfl

/-- C2 witness: a wanted annotation present with an identical value is
accepted, extra claim annotations being ignored. -/
theorem claim_C2_witness :
    correctAnnotations [("k", "v")] [("x", "y"), ("k", "v")] = true :=
  (claim_C2 [("k", "v")] [("x", "y"), ("k", "v")]).1.mpr (by decide)

/-- C10: a wanted annotation whose value is the empty string is satisfied even
when its key is entirely absent from the claim's annotation map, because the
Go map read of an absent key yields the zero value `""`, indistinguishable
from a key mapped to the empty string. -/
theorem claim_C10 (wanted hav : AnnMap) (k : String)
    (habsent : hav.lookup k = none) :
    mapGet hav k = "" ∧
    correctAnnotations ((k, "") :: wanted) hav = correctAnnotations wanted hav := by
  have hg : mapGet hav k = "" := by simp [mapGet, habsent]
  exact ⟨hg, by simp [correctAnnotations, hg]⟩

/-- C10 witness: the empty-valued wanted key `"key"` is absent from the empty
claim map yet the matcher accepts. -/
theorem claim_C10_witness :
    mapGet [] "key" = "" ∧
    correctAnnotations [("key", "")] [] = correctAnnotations [] [] :=
  claim_C10 [] [] "key" (by decide)

/-- C4: with `checkClaims = false` the orchestrator's result is exactly the
phase-1 outcome (the fetch error, or the `validSignatures` outcome), so the
phase-2 logic (`verifyClaims`, hence claim extraction and matching) is never
invoked and the result does not depend on the wanted annotations; survivors
with malformed or mismatching payloads are therefore still returned. -/
theorem claim_C4 (C : Crypto)
    (fetch : String → Except String (List SignedPayload × Descriptor))
    (ref : String) (pk : PubKey) (ann ann' : AnnMap) :
    (Verify C fetch ref pk false ann =
      (fetch ref).bind (fun fr => validSignatures C pk fr.1)) ∧
    Verify C fetch ref pk false ann = Verify C fetch ref pk false ann' := by
  have h : ∀ a : AnnMap, Verify C fetch ref pk false a =
      (fetch ref).bind (fun fr => validSignatures C pk fr.1) := by
    intro a
    rw [Verify_eq]
    cases fetch ref with
    | error e => rfl
    | ok fr =>
      show (validSignatures C pk fr.1).bind _ = (validSignatures C pk fr.1)
      cases validSignatures C pk fr.1 <;> rfl
  exact ⟨h ann, (h ann).trans (h ann').symm⟩

/-- C9: the orchestrator never returns a partial or ambiguous result: a
successful return carries a non-empty survivor list (the return type itself
allows only one error otherwise), and an empty candidate list yields the
`no matching signatures` error, never an empty success. -/
theorem claim_C9 (C : Crypto)
    (fetch : String → Except String (List SignedPayload × Descriptor))
    (ref : String) (pk : PubKey) (cc : Bool) (ann : AnnMap) :
    (∀ l, Verify C fetch ref pk cc ann = .ok l → l ≠ []) ∧
    (∀ desc, fetch ref = .ok ([], desc) →
      Verify C fetch ref pk cc ann = .error "no matching signatures:\n") := by
  constructor
  · intro l hl
    rw [Verify_eq] at hl
    cases hf : fetch ref with
    | error e => rw [hf] at hl; cases hl
    | ok fr =>
      rw [hf] at hl
      have hl1 : (validSignatures C pk fr.1).bind
          (fun valid => if ¬ cc then Except.ok valid else verifyClaims fr.2 ann valid) =
          Except.ok l := hl
      cases hv : validSignatures C pk fr.1 with
      | error e => rw [hv] at hl1; cases hl1
      | ok valid =>
        rw [hv] at hl1
        have hl2 : (if ¬ cc then Except.ok valid else verifyClaims fr.2 ann valid) =
            Except.ok l := hl1
        cases cc with
        | true =>
          have h2 : verifyClaims fr.2 ann valid = Except.ok l := by simpa using hl2
          exact (verifyClaims_ok fr.2 ann valid l h2).2
        | false =>
          have h2 : valid = l := by simpa using hl2
          rw [← h2]
          exact (validSignatures_ok C pk fr.1 valid hv).2
  · intro desc hf
    rw [Verify_eq, hf]
    show (validSignatures C pk ([] : List SignedPayload)).bind
        (fun valid => if ¬ cc then Except.ok valid else verifyClaims desc ann valid) =
      Except.error "no matching signatures:\n"
    have hempty : validSignatures C pk ([] : List SignedPayload) =
        .error "no matching signatures:\n" := rfl
    rw [hempty]
    rfl

/-- C9 witness: an empty candidate list yields the aggregated error, not an
empty success. -/
theorem claim_C9_witness :
    Verify cryptoAccept (fun _ => .ok ([], demoDesc)) "ref" [] true [] =
      .error "no matching signatures:\n" :=
  (claim_C9 cryptoAccept (fun _ => .ok ([], demoDesc)) "ref" [] true []).2 demoDesc rfl

/-- C3: when every candidate fails phase-1 signature validation, the call
fails with the `no matching signatures` error whose message carries the
per-candidate failure messages joined by newline-plus-indent in candidate
order, and (when the messages are themselves newline-free) the error text has
exactly one line per failed candidate after the header line: its newline
count equals the number of failed candidates. -/
theorem claim_C3 (C : Crypto) (pk : PubKey) (sigs : List SignedPayload)
    (hfail : ∀ sp ∈ sigs, (sigOutcome C pk sp).isSome) :
    validSignatures C pk sigs =
      .error ("no matching signatures:\n" ++
        goJoin "\n  " (sigs.map (fun sp => (sigOutcome C pk sp).getD ""))) ∧
    (sigs ≠ [] →
      (∀ sp ∈ sigs, countNewlines ((sigOutcome C pk sp).getD "") = 0) →
      countNewlines ("no matching signatures:\n" ++
        goJoin "\n  " (sigs.map (fun sp => (sigOutcome C pk sp).getD ""))) = sigs.length) := by
  have hfilter : sigs.filter (fun sp => (sigOutcome C pk sp).isNone) = [] := by
    rw [List.filter_eq_nil_iff]
    intro sp hsp
    have hs := hfail sp hsp
    cases h : sigOutcome C pk sp
    · rw [h] at hs; simp at hs
    · simp [h]
  constructor
  · unfold validSignatures
    rw [validSignaturesLoop_eq]
    simp only [hfilter, if_pos]
    rw [filterMap_sigOutcome_eq C pk sigs hfail]
  · intro hne h0
    rw [countNewlines_append]
    have hhead : countNewlines "no matching signatures:\n" = 1 := rfl
    have hmapne : sigs.map (fun sp => (sigOutcome C pk sp).getD "") ≠ [] := by
      intro hmap
      exact hne (by simpa using hmap)
    have h0m : ∀ m ∈ sigs.map (fun sp => (sigOutcome C pk sp).getD ""),
        countNewlines m = 0 := by
      intro m hm
      rw [List.mem_map] at hm
      obtain ⟨sp, hsp, rfl⟩ := hm
      exact h0 sp hsp
    rw [hhead, countNewlines_goJoin _ hmapne h0m, List.length_map]
    have hlen : sigs.length ≠ 0 := fun h => hne (List.length_eq_zero.mp h)
    omega

/-- C3 witness: two candidates, both failing base64 decode, yield the joined
two-line diagnostic. -/
theorem claim_C3_witness :
    (∀ sp ∈ [demoSpGood, demoSpBad], (sigOutcome cryptoReject [] sp).isSome) ∧
    validSignatures cryptoReject [] [demoSpGood, demoSpBad] =
      .error "no matching signatures:\nillegal base64 data\n  illegal base64 data" := by
  refine ⟨by decide, ?_⟩
  exact (claim_C3 cryptoReject [] [demoSpGood, demoSpBad] (by decide)).1.trans (by decide)

/-- C1: in phase 2, a phase-1 survivor whose claim extraction fails has the
failure recorded among the loop's messages and is dropped from the kept list
while the rest of the batch is still processed (the loop aggregates over every
item); a survivor whose extraction succeeds but whose digest or annotations
the matcher rejects has a message describing the mismatch recorded and is
dropped; a survivor whose claim checks out is kept and returned. -/
theorem claim_C1 (desc : Descriptor) (ann : AnnMap) (l : List SignedPayload)
    (sp : SignedPayload) (hmem : sp ∈ l) :
    (∀ e, (digestAndClaims desc sp).2.2 = some e →
      e ∈ (verifyClaimsLoop desc ann l).1 ∧ sp ∉ (verifyClaimsLoop desc ann l).2) ∧
    ((digestAndClaims desc sp).2.2 = none →
      (digestAndClaims desc sp).1 ≠ desc.digest.string →
      ("invalid or missing digest in claim: " ++ (digestAndClaims desc sp).1) ∈
          (verifyClaimsLoop desc ann l).1 ∧
        sp ∉ (verifyClaimsLoop desc ann l).2) ∧
    ((digestAndClaims desc sp).1 = desc.digest.string →
      correctAnnotations ann (digestAndClaims desc sp).2.1 = false →
      ("invalid or missing annotation in claim: " ++ formatMap (digestAndClaims desc sp).2.1) ∈
          (verifyClaimsLoop desc ann l).1 ∧
        sp ∉ (verifyClaimsLoop desc ann l).2) ∧
    (claimItemKeep desc ann sp = true →
      ∃ out, verifyClaims desc ann l = .ok out ∧ sp ∈ out) := by
  rw [verifyClaimsLoop_eq]
  refine ⟨?_, ?_, ?_, ?_⟩
  · intro e he
    constructor
    · exact List.mem_flatMap.mpr ⟨sp, hmem, by rw [claimItemErrs_of_error desc ann sp e he]; simp⟩
    · intro hk
      have := (List.mem_filter.mp hk).2
      rw [extractionError_not_kept desc ann sp e he] at this
      cases this
  · intro hn hne
    have herrs : claimItemErrs desc ann sp =
        ["invalid or missing digest in claim: " ++ (digestAndClaims desc sp).1] := by
      simp [claimItemErrs, hn, hne]
    have hkeep : claimItemKeep desc ann sp = false := by
      simp [claimItemKeep, hne]
    constructor
    · exact List.mem_flatMap.mpr ⟨sp, hmem, by rw [herrs]; simp⟩
    · intro hk
      have := (List.mem_filter.mp hk).2
      rw [hkeep] at this
      cases this
  · intro heq hann
    have hn : (digestAndClaims desc sp).2.2 = none := by
      cases hx : (digestAndClaims desc sp).2.2 with
      | none => rfl
      | some e =>
        have := digestAndClaims_error_fst desc sp e hx
        rw [this] at heq
        exact absurd heq.symm (hashString_ne_empty desc.digest)
    have herrs : claimItemErrs desc ann sp =
        ["invalid or missing annotation in claim: " ++ formatMap (digestAndClaims desc sp).2.1] := by
      simp [claimItemErrs, hn, heq, hann]
    have hkeep : claimItemKeep desc ann sp = false := by
      simp [claimItemKeep, hann]
    constructor
    · exact List.mem_flatMap.mpr ⟨sp, hmem, by rw [herrs]; simp⟩
    · intro hk
      have := (List.mem_filter.mp hk).2
      rw [hkeep] at this
      cases this
  · intro hkeep
    have hmemf : sp ∈ l.filter (claimItemKeep desc ann) :=
      List.mem_filter.mpr ⟨hmem, hkeep⟩
    have hne : l.filter (claimItemKeep desc ann) ≠ [] :=
      List.ne_nil_of_mem hmemf
    exact ⟨l.filter (claimItemKeep desc ann), verifyClaims_of_filter_ne desc ann l hne, hmemf⟩

/-- C1 witness: a four-candidate batch exercising all outcomes: an
undecodable payload, a wrong digest, a missing annotation, and a fully
matching claim that is kept. -/
theorem claim_C1_witness :
    ("json unmarshal error" ∈
        (verifyClaimsLoop demoDesc [("k", "v")] [demoSpBad, demoSpWrong, demoSpNoAnn, demoSpGood]).1 ∧
      demoSpBad ∉
        (verifyClaimsLoop demoDesc [("k", "v")] [demoSpBad, demoSpWrong, demoSpNoAnn, demoSpGood]).2) ∧
    (("invalid or missing digest in claim: " ++ (digestAndClaims demoDesc demoSpWrong).1) ∈
        (verifyClaimsLoop demoDesc [("k", "v")] [demoSpBad, demoSpWrong, demoSpNoAnn, demoSpGood]).1 ∧
      demoSpWrong ∉
        (verifyClaimsLoop demoDesc [("k", "v")] [demoSpBad, demoSpWrong, demoSpNoAnn, demoSpGood]).2) ∧
    (("invalid or missing annotation in claim: " ++ formatMap (digestAndClaims demoDesc demoSpNoAnn).2.1) ∈
        (verifyClaimsLoop demoDesc [("k", "v")] [demoSpBad, demoSpWrong, demoSpNoAnn, demoSpGood]).1 ∧
      demoSpNoAnn ∉
        (verifyClaimsLoop demoDesc [("k", "v")] [demoSpBad, demoSpWrong, demoSpNoAnn, demoSpGood]).2) ∧
    (∃ out, verifyClaims demoDesc [("k", "v")] [demoSpBad, demoSpWrong, demoSpNoAnn, demoSpGood] =
        .ok out ∧ demoSpGood ∈ out) :=
  ⟨(claim_C1 demoDesc [("k", "v")] [demoSpBad, demoSpWrong, demoSpNoAnn, demoSpGood]
      demoSpBad (by decide)).1 "json unmarshal error" (by decide),
   (claim_C1 demoDesc [("k", "v")] [demoSpBad, demoSpWrong, demoSpNoAnn, demoSpGood]
      demoSpWrong (by decide)).2.1 (by decide) (by decide),
   (claim_C1 demoDesc [("k", "v")] [demoSpBad, demoSpWrong, demoSpNoAnn, demoSpGood]
      demoSpNoAnn (by decide)).2.2.1 (by decide) (by decide),
   (claim_C1 demoDesc [("k", "v")] [demoSpBad, demoSpWrong, demoSpNoAnn, demoSpGood]
      demoSpGood (by decide)).2.2.2 (by decide)⟩

/-- C5: claim extraction recognizes exactly the two media types: extraction
succeeds precisely when the descriptor's media type is the OCI manifest type
and the payload decodes as a descriptor (whose digest and annotations are
returned) or the simple-signing type and the payload decodes as a
simple-signing document (read from the critical/image docker-manifest-digest
and optional fields); any other media type yields the unexpected-media-type
error and undecodable bytes for a recognized type return the decode error
itself; either error is recorded per item while the loop keeps aggregating
over the remaining items (it distributes over list append), never aborting
the batch. -/
theorem claim_C5 (desc : Descriptor) (sp : SignedPayload) (ann : AnnMap)
    (l1 l2 : List SignedPayload) :
    ((digestAndClaims desc sp).2.2 = none ↔
      (desc.mediaType = ociManifestSchema1 ∧ ∃ d, sp.payload.asDescriptor = .ok d) ∨
      (desc.mediaType = simpleSigningMediaType ∧ ∃ ss, sp.payload.asSimpleSigning = .ok ss)) ∧
    (∀ d, desc.mediaType = ociManifestSchema1 → sp.payload.asDescriptor = .ok d →
      digestAndClaims desc sp = (d.digest.string, d.annotations, none)) ∧
    (∀ ss, desc.mediaType = simpleSigningMediaType → sp.payload.asSimpleSigning = .ok ss →
      digestAndClaims desc sp = (ss.critical.image.dockerManifestDigest, ss.optional, none)) ∧
    (∀ e, desc.mediaType = ociManifestSchema1 → sp.payload.asDescriptor = .error e →
      digestAndClaims desc sp = ("", [], some e)) ∧
    (∀ e, desc.mediaType = simpleSigningMediaType → sp.payload.asSimpleSigning = .error e →
      digestAndClaims desc sp = ("", [], some e)) ∧
    (desc.mediaType ≠ ociManifestSchema1 → desc.mediaType ≠ simpleSigningMediaType →
      digestAndClaims desc sp =
        ("", [], some ("unexpected mediaType for " ++ desc.digest.string ++ ": " ++ desc.mediaType))) ∧
    (∀ e, (digestAndClaims desc sp).2.2 = some e → ∀ l, sp ∈ l →
      e ∈ (verifyClaimsLoop desc ann l).1 ∧ sp ∉ (verifyClaimsLoop desc ann l).2) ∧
    (verifyClaimsLoop desc ann (l1 ++ l2) =
      ((verifyClaimsLoop desc ann l1).1 ++ (verifyClaimsLoop desc ann l2).1,
       (verifyClaimsLoop desc ann l1).2 ++ (verifyClaimsLoop desc ann l2).2)) := by
  have hms : ociManifestSchema1 ≠ simpleSigningMediaType := by decide
  refine ⟨?_, ?_, ?_, ?_, ?_, ?_, ?_, ?_⟩
  · constructor
    · intro hn
      unfold digestAndClaims at hn
      by_cases h1 : desc.mediaType = ociManifestSchema1
      · rw [if_pos h1] at hn
        cases hd : sp.payload.asDescriptor with
        | error e => rw [hd] at hn; simp at hn
        | ok d => exact .inl ⟨h1, d, rfl⟩
      · rw [if_neg h1] at hn
        by_cases h2 : desc.mediaType = simpleSigningMediaType
        · rw [if_pos h2] at hn
          cases hs : sp.payload.asSimpleSigning with
          | error e => rw [hs] at hn; simp at hn
          | ok ss => exact .inr ⟨h2, ss, rfl⟩
        · rw [if_neg h2] at hn; simp at hn
    · rintro (⟨h1, d, hd⟩ | ⟨h2, ss, hs⟩)
      · simp [digestAndClaims, h1, hd]
      · simp [digestAndClaims, h2, hs, Ne.symm hms]
  · intro d h1 hd
    simp [digestAndClaims, h1, hd]
  · intro ss h2 hs
    simp [digestAndClaims, h2, hs, Ne.symm hms]
  · intro e h1 hd
    simp [digestAndClaims, h1, hd]
  · intro e h2 hs
    simp [digestAndClaims, h2, hs, Ne.symm hms]
  · intro h1 h2
    simp [digestAndClaims, h1, h2]
  · intro e he l hl
    rw [verifyClaimsLoop_eq]
    constructor
    · exact List.mem_flatMap.mpr
        ⟨sp, hl, by rw [claimItemErrs_of_error desc ann sp e he]; simp⟩
    · intro hk
      have hkeep := (List.mem_filter.mp hk).2
      rw [extractionError_not_kept desc ann sp e he] at hkeep
      cases hkeep
  · rw [verifyClaimsLoop_eq, verifyClaimsLoop_eq, verifyClaimsLoop_eq]
    simp [List.flatMap_append, List.filter_append]

/-- C5 witness: an unrecognized descriptor media type produces the
unexpected-media-type error as a per-item failure, and the phase-2 loop
distributes over list append, so the batch is never aborted. -/
theorem claim_C5_witness :
    digestAndClaims demoDescBad demoSpGood =
      ("", [], some ("unexpected mediaType for " ++ demoDescBad.digest.string ++ ": " ++
        demoDescBad.mediaType)) ∧
    verifyClaimsLoop demoDescBad [] ([demoSpGood] ++ [demoSpBad]) =
      ((verifyClaimsLoop demoDescBad [] [demoSpGood]).1 ++
        (verifyClaimsLoop demoDescBad [] [demoSpBad]).1,
       (verifyClaimsLoop demoDescBad [] [demoSpGood]).2 ++
        (verifyClaimsLoop demoDescBad [] [demoSpBad]).2) :=
  ⟨(claim_C5 demoDescBad demoSpGood [] [demoSpGood] [demoSpBad]).2.2.2.2.2.1
      (by decide) (by decide),
   (claim_C5 demoDescBad demoSpGood [] [demoSpGood] [demoSpBad]).2.2.2.2.2.2.2⟩

/-- C6: a candidate that fails phase-1 signature validation never reaches
phase 2: it is excluded from the survivor list that `Verify` hands, unchanged,
to `verifyClaims`; and when the descriptor's media type is unrecognized the
phase-2 loop records the per-item unexpected-media-type failure (plus the
spurious zero-digest message) for every item and drops them all, rather than
aborting: every item of the list still contributes its messages. -/
theorem claim_C6 (C : Crypto) (pk : PubKey) (sigs valid : List SignedPayload)
    (sp : SignedPayload)
    (fetch : String → Except String (List SignedPayload × Descriptor))
    (ref : String) (ann : AnnMap) (desc : Descriptor) :
    (sp ∈ sigs → sigOutcome C pk sp ≠ none →
      validSignatures C pk sigs = .ok valid → sp ∉ valid) ∧
    (fetch ref = .ok (sigs, desc) →
      Verify C fetch ref pk true ann =
        (validSignatures C pk sigs).bind (verifyClaims desc ann)) ∧
    (desc.mediaType ≠ ociManifestSchema1 → desc.mediaType ≠ simpleSigningMediaType →
      verifyClaimsLoop desc ann valid =
        (valid.flatMap (fun _ =>
          ["unexpected mediaType for " ++ desc.digest.string ++ ": " ++ desc.mediaType,
           "invalid or missing digest in claim: "]),
         [])) := by
  refine ⟨?_, ?_, ?_⟩
  · intro hmem hfail hok hin
    have hval := validSignatures_ok C pk sigs valid hok
    rw [hval.1] at hin
    have hnone := (List.mem_filter.mp hin).2
    cases ho : sigOutcome C pk sp with
    | none => exact hfail ho
    | some e => rw [ho] at hnone; simp at hnone
  · intro hf
    rw [Verify_eq, hf]
    have h : (validSignatures C pk sigs).bind
        (fun v => if ¬ (true : Bool) then Except.ok v else verifyClaims desc ann v) =
        (validSignatures C pk sigs).bind (verifyClaims desc ann) := by
      cases validSignatures C pk sigs <;> simp [Except.bind]
    exact h
  · intro h1 h2
    rw [verifyClaimsLoop_eq]
    have herr : ∀ x : SignedPayload, digestAndClaims desc x =
        ("", [], some ("unexpected mediaType for " ++ desc.digest.string ++ ": " ++
          desc.mediaType)) := by
      intro x
      simp [digestAndClaims, h1, h2]
    have hflat : valid.flatMap (claimItemErrs desc ann) =
        valid.flatMap (fun _ =>
          ["unexpected mediaType for " ++ desc.digest.string ++ ": " ++ desc.mediaType,
           "invalid or missing digest in claim: "]) := by
      refine flatMap_congrOn valid _ _ (fun a ha => ?_)
      exact claimItemErrs_of_error desc ann a
        ("unexpected mediaType for " ++ desc.digest.string ++ ": " ++ desc.mediaType)
        (by simp [herr a])
    have hfilter : valid.filter (claimItemKeep desc ann) = [] := by
      refine List.filter_eq_nil_iff.mpr (fun a ha => ?_)
      simp [extractionError_not_kept desc ann a
        ("unexpected mediaType for " ++ desc.digest.string ++ ": " ++ desc.mediaType)
        (by simp [herr a])]
    rw [hflat, hfilter]

/-- C6 witness: under a crypto model accepting only `demoSpGood`'s payload,
the failing candidate is absent from the phase-1 survivors handed to phase 2,
and with an unrecognized media type every item contributes a per-item
failure. -/
theorem claim_C6_witness :
    demoSpBad ∉ [demoSpGood] ∧
    Verify cryptoSelective (fun _ => .ok ([demoSpGood, demoSpBad], demoDesc)) "r" [] true [] =
      (validSignatures cryptoSelective [] [demoSpGood, demoSpBad]).bind
        (verifyClaims demoDesc []) ∧
    verifyClaimsLoop demoDescBad [] [demoSpGood] =
      ([demoSpGood].flatMap (fun _ =>
        ["unexpected mediaType for " ++ demoDescBad.digest.string ++ ": " ++
          demoDescBad.mediaType,
         "invalid or missing digest in claim: "]),
       []) :=
  ⟨(claim_C6 cryptoSelective [] [demoSpGood, demoSpBad] [demoSpGood] demoSpBad
      (fun _ => .ok ([demoSpGood, demoSpBad], demoDesc)) "r" [] demoDesc).1
        (by decide) (by decide) (by decide),
   (claim_C6 cryptoSelective [] [demoSpGood, demoSpBad] [demoSpGood] demoSpBad
      (fun _ => .ok ([demoSpGood, demoSpBad], demoDesc)) "r" [] demoDesc).2.1 rfl,
   (claim_C6 cryptoSelective [] [demoSpGood, demoSpBad] [demoSpGood] demoSpBad
      (fun _ => .ok ([demoSpGood, demoSpBad], demoDesc)) "r" [] demoDescBad).2.2
        (by decide) (by decide)⟩

/-- C7: any successful result of the orchestrator, whether claims were checked
or not, is a sublist of the fetched candidate list: surviving items appear in
their original relative candidate order. -/
theorem claim_C7 (C : Crypto)
    (fetch : String → Except String (List SignedPayload × Descriptor))
    (ref : String) (pk : PubKey) (cc : Bool) (ann : AnnMap)
    (sigs : List SignedPayload) (desc : Descriptor) (l : List SignedPayload)
    (hf : fetch ref = .ok (sigs, desc))
    (hok : Verify C fetch ref pk cc ann = .ok l) :
    l.Sublist sigs := by
  rw [Verify_eq, hf] at hok
  have hok1 : (validSignatures C pk sigs).bind
      (fun valid => if ¬ cc then Except.ok valid else verifyClaims desc ann valid) =
      Except.ok l := hok
  cases hv : validSignatures C pk sigs with
  | error e => rw [hv] at hok1; cases hok1
  | ok valid =>
    rw [hv] at hok1
    have hval := validSignatures_ok C pk sigs valid hv
    have hsub1 : valid.Sublist sigs := by
      rw [hval.1]; exact List.filter_sublist sigs
    have hok2 : (if ¬ cc then Except.ok valid else verifyClaims desc ann valid) =
        Except.ok l := hok1
    cases cc with
    | false =>
      have h2 : valid = l := by simpa using hok2
      rw [← h2]; exact hsub1
    | true =>
      have h2 : verifyClaims desc ann valid = Except.ok l := by simpa using hok2
      have hvc := verifyClaims_ok desc ann valid l h2
      have hsub2 : l.Sublist valid := by
        rw [hvc.1]; exact List.filter_sublist valid
      exact hsub2.trans hsub1

/-- C7 witness: a two-candidate batch whose second phase keeps only the fully
matching payload returns a sublist of the original candidates. -/
theorem claim_C7_witness :
    Verify cryptoSelective (fun _ => .ok ([demoSpBad, demoSpGood], demoDesc)) "r" []
        true [("k", "v")] = .ok [demoSpGood] ∧
    [demoSpGood].Sublist [demoSpBad, demoSpGood] :=
  ⟨by decide,
   claim_C7 cryptoSelective (fun _ => .ok ([demoSpBad, demoSpGood], demoDesc)) "r" []
     true [("k", "v")] [demoSpBad, demoSpGood] demoDesc [demoSpGood] rfl (by decide)⟩

/-- C8: phase-2 digest matching is exact string equality (the kept-item
predicate compares the extracted digest with the descriptor's digest string
and applies no normalization); a survivor asserting a different digest is
dropped and a failure message quoting that digest is recorded; and when no
survivors remain the call fails with the aggregated `no matching claims`
error. -/
theorem claim_C8 (desc : Descriptor) (ann : AnnMap) (l : List SignedPayload)
    (sp : SignedPayload) (d : String) (a : AnnMap)
    (hmem : sp ∈ l)
    (hex : digestAndClaims desc sp = (d, a, none))
    (hne : d ≠ desc.digest.string) :
    claimItemKeep desc ann sp = false ∧
    (("invalid or missing digest in claim: " ++ d) ∈ (verifyClaimsLoop desc ann l).1 ∧
      sp ∉ (verifyClaimsLoop desc ann l).2) ∧
    ((verifyClaimsLoop desc ann l).2 = [] →
      verifyClaims desc ann l =
        .error ("no matching claims:\n" ++ goJoin "\n  " ((verifyClaimsLoop desc ann l).1))) ∧
    (∀ sp' : SignedPayload, claimItemKeep desc ann sp' =
      (((digestAndClaims desc sp').1 == desc.digest.string) &&
        correctAnnotations ann (digestAndClaims desc sp').2.1)) := by
  have hkeep : claimItemKeep desc ann sp = false := by
    simp [claimItemKeep, hex, hne]
  have herrs : claimItemErrs desc ann sp =
      ["invalid or missing digest in claim: " ++ d] := by
    simp [claimItemErrs, hex, hne]
  refine ⟨hkeep, ⟨?_, ?_⟩, ?_, ?_⟩
  · rw [verifyClaimsLoop_eq]
    exact List.mem_flatMap.mpr ⟨sp, hmem, by rw [herrs]; simp⟩
  · rw [verifyClaimsLoop_eq]
    intro hk
    have := (List.mem_filter.mp hk).2
    rw [hkeep] at this
    cases this
  · intro hempty
    show (if (verifyClaimsLoop desc ann l).2 = [] then _ else _) = _
    rw [if_pos hempty]
  · intro sp'
    rfl

/-- C8 witness: a single survivor asserting digest `sha256:def` against
descriptor digest `sha256:abc` is dropped with the quoting message and the
call fails with the aggregated error. -/
theorem claim_C8_witness :
    claimItemKeep demoDesc [] demoSpWrong = false ∧
    (("invalid or missing digest in claim: " ++ "sha256:def") ∈
        (verifyClaimsLoop demoDesc [] [demoSpWrong]).1 ∧
      demoSpWrong ∉ (verifyClaimsLoop demoDesc [] [demoSpWrong]).2) ∧
    ((verifyClaimsLoop demoDesc [] [demoSpWrong]).2 = [] →
      verifyClaims demoDesc [] [demoSpWrong] =
        .error ("no matching claims:\n" ++
          goJoin "\n  " ((verifyClaimsLoop demoDesc [] [demoSpWrong]).1))) ∧
    (∀ sp' : SignedPayload, claimItemKeep demoDesc [] sp' =
      (((digestAndClaims demoDesc sp').1 == demoDesc.digest.string) &&
        correctAnnotations [] (digestAndClaims demoDesc sp').2.1)) :=
  claim_C8 demoDesc [] [demoSpWrong] demoSpWrong "sha256:def" []
    (by decide) (by decide) (by decide)

end Cosign
